import Mathlib

/-
  Shallow embedding of the PC-Bot hardware-assistant core:
    - src/tools/querytools.py      (HardwareQueryTool._apply_spec_filters, _value_matches)
    - src/tools/check_compatibility.py (CompatibilityChecker)
    - src/tools/power_consumption.py   (calculate_power_consumption)

  Python dynamic values are modelled by the inductive `Val`; Python numbers
  (int/float) are modelled by exact rationals `Rat` (the source only compares
  and scales numbers, and every constant appearing in the claims is exactly
  representable, so float rounding does not affect any claim).  Fallible
  Python code is modelled with `Except PyError`; an uncaught Python exception
  is an `Except.error`.
-/

namespace PCBot

/-- Python exception kinds that the modelled code can raise. -/
inductive PyError where
  | typeError : PyError
  | valueError : PyError
  | keyError : String → PyError
  | attributeError : PyError
  | jsonDecodeError : PyError
deriving DecidableEq, Repr

/-- A Python/JSON dynamic value: string, number, bool, None, dict or list.
    Numbers (int and float alike) are exact rationals. -/
inductive Val where
  | vStr : String → Val
  | vNum : Rat → Val
  | vBool : Bool → Val
  | vNull : Val
  | vDict : List (String × Val) → Val
  | vList : List Val → Val
deriving Repr

/-- Python dict lookup on an association list (dict keys are unique). -/
def dictGet (d : List (String × Val)) (k : String) : Option Val :=
  match d with
  | [] => none
  | (k2, v) :: rest => if k2 = k then some v else dictGet rest k

/-- Python truthiness (`bool(v)`): empty string/dict/list, 0, False and None
    are falsy. -/
def truthy : Val → Bool
  | .vStr s => !(decide (s = ""))
  | .vNum n => !(decide (n = 0))
  | .vBool b => b
  | .vNull => false
  | .vDict [] => false
  | .vDict (_ :: _) => true
  | .vList [] => false
  | .vList (_ :: _) => true

/-- Rendering of a rational the way Python prints the integers appearing in
    the sources' f-strings.  (The int/float display distinction and container
    reprs are abstracted to a canonical form; no claim depends on them.) -/
def ratRender (q : Rat) : String :=
  if q.den = 1 then toString q.num else toString q.num ++ "/" ++ toString q.den

/-- Python `str(v)` for the value kinds the sources stringify. -/
def pyStrOf : Val → String
  | .vStr s => s
  | .vNum q => ratRender q
  | .vBool b => if b then "True" else "False"
  | .vNull => "None"
  | .vDict _ => "<dict>"
  | .vList _ => "<list>"

/-- Calling a `str` method (`.lower()` etc.) on a non-string raises
    `AttributeError`. -/
def asStr : Val → Except PyError String
  | .vStr s => .ok s
  | _ => .error .attributeError

/-- Python `<` on the value kinds occurring in spec fields: numbers (with
    bool as 0/1) compare numerically, strings lexicographically, and any
    mixed or unordered combination raises `TypeError` (container/container
    ordering is not needed by any modelled code path). -/
def pyLt : Val → Val → Except PyError Bool
  | .vNum a, .vNum b => .ok (decide (a < b))
  | .vNum a, .vBool b => .ok (decide (a < (if b then (1 : Rat) else 0)))
  | .vBool a, .vNum b => .ok (decide ((if a then (1 : Rat) else 0) < b))
  | .vBool a, .vBool b => .ok (decide ((if a then (1 : Rat) else 0) < (if b then 1 else 0)))
  | .vStr a, .vStr b => .ok (decide (a < b))
  | _, _ => .error .typeError

/-- Python `v * f` with `f` a float: numbers multiply, bools coerce to 0/1,
    and a string (or None/container) times a float raises `TypeError`. -/
def pyMulFloat : Val → Rat → Except PyError Rat
  | .vNum n, q => .ok (n * q)
  | .vBool b, q => .ok ((if b then (1 : Rat) else 0) * q)
  | _, _ => .error .typeError

/-- `needle` is a prefix of `hay` (on character lists). -/
def startsWithL : List Char → List Char → Bool
  | [], _ => true
  | _ :: _, [] => false
  | a :: as, b :: bs => a = b && startsWithL as bs

/-- Python substring test `needle in hay` on character lists. -/
def containsSubL (needle : List Char) : List Char → Bool
  | [] => startsWithL needle []
  | c :: rest => startsWithL needle (c :: rest) || containsSubL needle rest

/-- Python substring test `needle in hay` for strings. -/
def strIn (needle hay : String) : Bool :=
  containsSubL needle.toList hay.toList

/-- Python `s.lower()` (on the ASCII data these sources handle), computed on
    the character list so that it reduces definitionally. -/
def pyLower (s : String) : String :=
  String.mk (s.toList.map Char.toLower)

/-- Python `s.upper()` (ASCII), computed on the character list. -/
def pyUpper (s : String) : String :=
  String.mk (s.toList.map Char.toUpper)

/-- The `socket_cleaner` lambda of `_check_cpu_motherboard`:
    `re.sub(r'[^a-z0-9]', '', s.lower().replace(' ', ''))`. -/
def socket_cleaner (s : String) : String :=
  ((pyLower s).toList.filter
    (fun c => ('a' ≤ c ∧ c ≤ 'z') ∨ ('0' ≤ c ∧ c ≤ '9'))).asString

/-- `re.findall(r'ddr[345]', text)`: all non-overlapping matches, scanning
    left to right. -/
def findall_ddr : List Char → List String
  | 'd' :: 'd' :: 'r' :: d :: rest =>
      if d = '3' ∨ d = '4' ∨ d = '5' then
        ("ddr".push d) :: findall_ddr rest
      else
        findall_ddr ('d' :: 'r' :: d :: rest)
  | _ :: rest => findall_ddr rest
  | [] => []
termination_by l => l.length

/-- Numeric value of a digit run. -/
def digitsVal (l : List Char) : Nat :=
  l.foldl (fun a c => a * 10 + (c.toNat - '0'.toNat)) 0

/-- `re.search(r'\d+', s)`: the first maximal run of decimal digits in `s`,
    as a natural number, or `none` when `s` has no digit. -/
def firstDigitRun : List Char → Option Nat
  | [] => none
  | c :: r => if c.isDigit then some (digitsVal (c :: r.takeWhile Char.isDigit)) else firstDigitRun r

/-- Whitespace as stripped by Python `float(str)`. -/
def isWsChar (c : Char) : Bool :=
  c = ' ' ∨ c = '\t' ∨ c = '\n' ∨ c = '\r'

/-- Mantissa of a Python float literal: `digits [. digits?]` or `. digits`. -/
def floatCore (l : List Char) : Option (Rat × List Char) :=
  let ds := l.takeWhile Char.isDigit
  let rest := l.dropWhile Char.isDigit
  match ds, rest with
  | [], '.' :: r2 =>
      let fs := r2.takeWhile Char.isDigit
      if fs = [] then none
      else some ((digitsVal fs : Rat) / (10 ^ fs.length), r2.dropWhile Char.isDigit)
  | [], _ => none
  | _ :: _, '.' :: r2 =>
      let fs := r2.takeWhile Char.isDigit
      some ((digitsVal ds : Rat) + (digitsVal fs : Rat) / (10 ^ fs.length),
            r2.dropWhile Char.isDigit)
  | _ :: _, _ => some ((digitsVal ds : Rat), rest)

/-- Signed decimal exponent following the `e`/`E` of a float literal. -/
def parseSignedExp (v : Rat) (l : List Char) : Option (Rat × List Char) :=
  let (neg, l1) :=
    match l with
    | '-' :: r => (true, r)
    | '+' :: r => (false, r)
    | r => (false, r)
  let ds := l1.takeWhile Char.isDigit
  if ds = [] then none
  else some ((if neg then v / 10 ^ digitsVal ds else v * 10 ^ digitsVal ds),
             l1.dropWhile Char.isDigit)

/-- Optional exponent suffix of a float literal. -/
def parseExpSuffix (v : Rat) : List Char → Option (Rat × List Char)
  | 'e' :: rest => parseSignedExp v rest
  | 'E' :: rest => parseSignedExp v rest
  | l => some (v, l)

/-- Python `float(s)` on a string: optional surrounding whitespace, optional
    sign, decimal mantissa, optional exponent; anything else raises
    `ValueError`.  (The special forms `inf`/`nan` never occur in the data the
    sources parse and are not modelled.) -/
def pyFloatOfString (s : String) : Except PyError Rat :=
  let l := s.toList.dropWhile isWsChar
  let (sgn, l1) :=
    match l with
    | '-' :: r => ((-1 : Rat), r)
    | '+' :: r => ((1 : Rat), r)
    | r => ((1 : Rat), r)
  match floatCore l1 with
  | none => .error .valueError
  | some (v, rest) =>
    match parseExpSuffix v rest with
    | none => .error .valueError
    | some (v2, rest2) =>
      if rest2.dropWhile isWsChar = [] then .ok (sgn * v2) else .error .valueError

/-- Python `float(v)` on a dynamic value: numbers pass through, bools coerce
    to 0/1, strings are parsed (`ValueError` on failure), and None or a
    container raises `TypeError`. -/
def pyFloatOfVal : Val → Except PyError Rat
  | .vNum n => .ok n
  | .vBool b => .ok (if b then 1 else 0)
  | .vStr s => pyFloatOfString s
  | _ => .error .typeError

/-!  ## src/tools/querytools.py — HardwareQueryTool  -/

/-- A hardware record as returned by `query_hardware` (one row of the
    `hardware` table: name/category/brand/model are NOT NULL strings, price
    is a nullable real, specs is a JSON object). -/
structure Component where
  name : String
  category : String
  brand : String
  model : String
  price : Option Rat
  specs : List (String × Val)

/-- The comparison branch of `_value_matches`: `threshold = float(rest)`,
    `float(actual) <cmp> threshold`, with `ValueError`/`TypeError` from either
    conversion caught and turned into `False`. -/
def cmpThreshold (actual : Val) (rest : List Char) (cmp : Rat → Rat → Bool) : Bool :=
  match pyFloatOfString (String.mk rest), pyFloatOfVal actual with
  | .ok t, .ok a => cmp a t
  | _, _ => false

/-- `HardwareQueryTool._value_matches`: operator-prefixed string filters
    compare numerically (parse failure → no match), anything else compares
    `str(actual) == str(filter)`.  The `>=`/`<=` prefixes are tested before
    `>`/`<`, as in the source. -/
def value_matches (actual_value filter_value : Val) : Bool :=
  match filter_value with
  | .vStr s =>
    match s.toList with
    | c :: c2 :: rest2 =>
      if c = '>' ∧ c2 = '=' then
        cmpThreshold actual_value rest2 (fun a t => decide (a ≥ t))
      else if c = '<' ∧ c2 = '=' then
        cmpThreshold actual_value rest2 (fun a t => decide (a ≤ t))
      else if c = '>' then
        cmpThreshold actual_value (c2 :: rest2) (fun a t => decide (a > t))
      else if c = '<' then
        cmpThreshold actual_value (c2 :: rest2) (fun a t => decide (a < t))
      else decide (pyStrOf actual_value = s)
    | [c] =>
      if c = '>' then cmpThreshold actual_value [] (fun a t => decide (a > t))
      else if c = '<' then cmpThreshold actual_value [] (fun a t => decide (a < t))
      else decide (pyStrOf actual_value = s)
    | [] => decide (pyStrOf actual_value = s)
  | f => decide (pyStrOf actual_value = pyStrOf f)

/-- Python `key.split(".")` computed on the character list (e.g. `"a.b"` ↦
    `["a", "b"]`, `"."` ↦ `["", ""]`, `""` ↦ `[""]`). -/
def splitDot : List Char → List String
  | [] => [""]
  | c :: rest =>
    if c = '.' then "" :: splitDot rest
    else
      match splitDot rest with
      | [] => [String.mk [c]]
      | s :: ss => String.mk (c :: s.toList) :: ss

/-- Python `part in v`: key test on a dict, substring test on a string,
    membership on a list, `TypeError` on any non-container. -/
def pyIn (part : String) : Val → Except PyError Bool
  | .vDict d => .ok (dictGet d part).isSome
  | .vStr s => .ok (strIn part s)
  | .vList l => .ok (l.any (fun x => match x with | .vStr s => decide (s = part) | _ => false))
  | _ => .error .typeError

/-- Python `v[part]` with a string index: dict lookup (`KeyError` when the
    key is absent), `TypeError` on strings/lists/scalars. -/
def pySubscript (v : Val) (part : String) : Except PyError Val :=
  match v with
  | .vDict d =>
    match dictGet d part with
    | some x => .ok x
    | none => .error (.keyError part)
  | _ => .error .typeError

/-- The dotted-path descent loop of `_apply_spec_filters`: walks the path
    segments; `Except.ok none` models the loop's `current_value = None; break`
    when a segment is not `in` the current value. -/
def descend : Val → List String → Except PyError (Option Val)
  | v, [] => .ok (some v)
  | v, p :: ps =>
    match pyIn p v with
    | .error e => .error e
    | .ok false => .ok none
    | .ok true =>
      match pySubscript v p with
      | .error e => .error e
      | .ok v2 => descend v2 ps

/-- The per-item body of `_apply_spec_filters`: `Except.ok true` iff the item
    survives every filter entry, walking the filter pairs in order and
    stopping at the first mismatch (or propagating the first exception). -/
def spec_filter_matches (item : Component) : List (String × Val) → Except PyError Bool
  | [] => .ok true
  | (key, value) :: rest =>
    if key = "brand" ∨ key = "min_price" ∨ key = "max_price" then
      spec_filter_matches item rest
    else if strIn "." key then
      match descend (.vDict item.specs) (splitDot key.toList) with
      | .error e => .error e
      | .ok none => .ok false
      | .ok (some .vNull) => .ok false
      | .ok (some v) =>
        if value_matches v value then spec_filter_matches item rest else .ok false
    else
      match dictGet item.specs key with
      | some av =>
        if value_matches av value then spec_filter_matches item rest else .ok false
      | none => .ok false

/-- `HardwareQueryTool._apply_spec_filters`: keeps the items whose specs
    satisfy every filter, in order; the first exception raised while checking
    an item propagates. -/
def apply_spec_filters (items : List Component) (filters : List (String × Val)) :
    Except PyError (List Component) :=
  match items with
  | [] => .ok []
  | i :: is =>
    match spec_filter_matches i filters, apply_spec_filters is filters with
    | .error e, _ => .error e
    | .ok _, .error e => .error e
    | .ok m, .ok rest => .ok (if m then i :: rest else rest)

/-!  ## src/tools/check_compatibility.py — CompatibilityChecker  -/

/-- A compatibility verdict tuple `(is_compatible, message, confidence)` as
    returned by the rule functions and by the LLM fallback.  The components
    are dynamic Python values (`None`/`True`/`False` for the tri-state, a
    string message, a float confidence). -/
abbrev Verdict := Val × Val × Val

/-- Python `repr` of a list of strings, as interpolated by an f-string
    (e.g. `['ddr4', 'ddr5']`). -/
def pyReprStrList (l : List String) : String :=
  let q := String.mk ['\x27']
  "[" ++ String.intercalate ", " (l.map (fun s => q ++ s ++ q)) ++ "]"

/-- `CompatibilityChecker._check_cpu_motherboard`: normalize both socket
    strings and compare; empty (or absent, via `.get('socket','')`) sockets
    are indeterminate with confidence 0.5. -/
def check_cpu_motherboard (cpu motherboard : Component) : Except PyError Verdict := do
  let cs ← asStr ((dictGet cpu.specs "socket").getD (.vStr ""))
  let ms ← asStr ((dictGet motherboard.specs "socket").getD (.vStr ""))
  let cpu_socket := socket_cleaner cs
  let mobo_socket := socket_cleaner ms
  if cpu_socket ≠ "" ∧ mobo_socket ≠ "" then
    if cpu_socket = mobo_socket then
      .ok (.vBool true, .vStr ("兼容: CPU插槽(" ++ cs ++ ")与主板插槽匹配"), .vNum 1)
    else
      .ok (.vBool false, .vStr ("不兼容: CPU(" ++ cs ++ ")与主板(" ++ ms ++ ")插槽不匹配"),
           .vNum 1)
  else
    .ok (.vNull, .vStr "无法确定: 插槽信息缺失", .vNum (1/2))

/-- `CompatibilityChecker._check_motherboard_memory`: `ddr[345]` tokens of the
    motherboard's memory-support text versus the RAM's memory-type token. -/
def check_motherboard_memory (motherboard memory : Component) : Except PyError Verdict := do
  let msRaw ← asStr ((dictGet motherboard.specs "memory_support").getD (.vStr ""))
  let mtRaw ← asStr ((dictGet memory.specs "memory_type").getD (.vStr ""))
  let supported_types := findall_ddr (pyLower msRaw).toList
  match supported_types, (findall_ddr (pyLower mtRaw).toList).head? with
  | [], _ => .ok (.vNull, .vStr "内存类型信息缺失", .vNum (1/2))
  | _ :: _, none => .ok (.vNull, .vStr "内存类型信息缺失", .vNum (1/2))
  | _ :: _, some mem_type =>
    if supported_types.contains mem_type then
      .ok (.vBool true, .vStr ("兼容: 主板支持" ++ pyUpper mem_type ++ "内存"), .vNum 1)
    else
      .ok (.vBool false,
           .vStr ("不兼容: 主板支持" ++ pyReprStrList supported_types ++ "，内存是" ++
                  pyUpper mem_type),
           .vNum (9/10))

/-- `CompatibilityChecker._check_motherboard_case`: the motherboard form
    factor must appear within the case's supported-form-factors text. -/
def check_motherboard_case (motherboard cas : Component) : Except PyError Verdict := do
  let ff ← asStr ((dictGet motherboard.specs "form_factor").getD (.vStr ""))
  let cs ← asStr ((dictGet cas.specs "supported_form_factors").getD (.vStr ""))
  let mobo_form_factor := pyLower ff
  let case_support := pyLower cs
  if mobo_form_factor = "" ∨ case_support = "" then
    .ok (.vNull, .vStr "无法确定: 主板版型或机箱支持信息缺失。", .vNum (1/2))
  else if strIn mobo_form_factor case_support then
    .ok (.vBool true, .vStr ("兼容: " ++ pyUpper mobo_form_factor ++ "主板可安装于此机箱。"),
         .vNum 1)
  else
    .ok (.vBool false, .vStr ("不兼容: 机箱不支持" ++ pyUpper mobo_form_factor ++ "主板。"),
         .vNum (9/10))

/-- `CompatibilityChecker._check_gpu_case`: first integer of the GPU length
    text versus first integer of the case's max-GPU-length text.  The bare
    `except:` of the source catches both the `AttributeError` from a failed
    `re.search(...).group()` and the `TypeError` from searching a non-string,
    so both are folded into the `none` outcome here. -/
def check_gpu_case (gpu cas : Component) : Except PyError Verdict :=
  let gl := match (dictGet gpu.specs "length").getD (.vStr "") with
    | .vStr s => firstDigitRun s.toList
    | _ => none
  let cm := match (dictGet cas.specs "max_gpu_length").getD (.vStr "") with
    | .vStr s => firstDigitRun s.toList
    | _ => none
  match gl, cm with
  | some g, some c =>
    if (g : Rat) ≤ (c : Rat) then
      .ok (.vBool true, .vStr ("兼容: 显卡长度(" ++ ratRender g ++ "mm)在机箱支持范围内"),
           .vNum 1)
    else
      .ok (.vBool false,
           .vStr ("不兼容: 显卡过长(" ++ ratRender g ++ "mm > " ++ ratRender c ++ "mm)"),
           .vNum (9/10))
  | _, _ => .ok (.vNull, .vStr "尺寸信息不完整", .vNum (1/2))

/-- `CompatibilityChecker._check_gpu_power`: requires all four wattage and
    connector fields to be truthy; the comparisons are Python `<` on the raw
    spec values (which raises `TypeError` on a number/string mix). -/
def check_gpu_power (gpu power : Component) : Except PyError Verdict := do
  let required_power := (dictGet gpu.specs "recommended_psu").getD (.vNum 0)
  let psu_power := (dictGet power.specs "output_power").getD (.vNum 0)
  let psu_connectors := (dictGet power.specs "pcie_connectors").getD (.vNum 0)
  let gpu_required := (dictGet gpu.specs "power_connectors").getD (.vNum 0)
  if ¬ (truthy required_power ∧ truthy psu_power ∧ truthy psu_connectors ∧
        truthy gpu_required) then
    .ok (.vNull, .vStr "电源规格信息不完整", .vNum (3/5))
  else do
    let b1 ← pyLt psu_power required_power
    let messages₁ := if b1 then
        ["电源功率不足(" ++ pyStrOf psu_power ++ "W < " ++ pyStrOf required_power ++ "W)"]
      else []
    let b2 ← pyLt psu_connectors gpu_required
    let messages := messages₁ ++ (if b2 then
        ["电源接口不足(" ++ pyStrOf psu_connectors ++ "个 < 需要" ++ pyStrOf gpu_required ++ "个)"]
      else [])
    match messages with
    | [] => .ok (.vBool true, .vStr "电源满足需求", .vNum (9/10))
    | _ :: _ => .ok (.vBool false, .vStr (String.intercalate "；" messages), .vNum (9/10))

/-- `CompatibilityChecker._check_power_motherboard`: lowercase equality of the
    motherboard's required power connector and the PSU's motherboard
    connector. -/
def check_power_motherboard (power motherboard : Component) : Except PyError Verdict :=
  let required_connector := (dictGet motherboard.specs "power_connector").getD (.vStr "")
  let psu_connector := (dictGet power.specs "motherboard_connector").getD (.vStr "")
  if ¬ (truthy required_connector ∧ truthy psu_connector) then
    .ok (.vNull, .vStr "接口信息缺失", .vNum (1/2))
  else do
    let rc ← asStr required_connector
    let pc ← asStr psu_connector
    if pyLower pc = pyLower rc then
      .ok (.vBool true, .vStr ("主板" ++ rc ++ "供电接口匹配"), .vNum 1)
    else
      .ok (.vBool false, .vStr ("接口不匹配(" ++ pc ++ " vs " ++ rc ++ ")"), .vNum (9/10))

/-- The `self.rules` dict of `CompatibilityChecker.__init__`, keyed by check
    type string. -/
def rules (check_type : String) : Option (Component → Component → Except PyError Verdict) :=
  if check_type = "cpu_motherboard" then some check_cpu_motherboard
  else if check_type = "motherboard_ram" then some check_motherboard_memory
  else if check_type = "motherboard_case" then some check_motherboard_case
  else if check_type = "gpu_case" then some check_gpu_case
  else if check_type = "gpu_power" then some check_gpu_power
  else if check_type = "power_motherboard" then some check_power_motherboard
  else none

/-!  ### A model of `json.loads`

A recursive-descent JSON reader producing a `Val`; any failure is the single
`jsonDecodeError` (matching `json.JSONDecodeError`).  Recursion is bounded by
a fuel argument that the top-level entry point sets to the input length + 1,
which every JSON nesting level fits in.  (Python's `NaN`/`Infinity`
extensions and `\uXXXX` escapes never occur in the adjudicator contract and
are not modelled.)  -/

/-- Skip JSON whitespace. -/
def skipWs : List Char → List Char
  | c :: r => if c = ' ' ∨ c = '\t' ∨ c = '\n' ∨ c = '\r' then skipWs r else c :: r
  | [] => []

/-- Read the remainder of a JSON string literal (the opening quote already
    consumed), returning its contents and the unread input. -/
def parseJString : List Char → Except PyError (String × List Char)
  | [] => .error .jsonDecodeError
  | '"' :: r => .ok ("", r)
  | '\\' :: e :: r => do
    let c ← match e with
      | '"' => Except.ok '"'
      | '\\' => Except.ok '\\'
      | '/' => Except.ok '/'
      | 'n' => Except.ok '\n'
      | 't' => Except.ok '\t'
      | 'r' => Except.ok '\r'
      | _ => Except.error PyError.jsonDecodeError
    let (s, rest) ← parseJString r
    .ok (String.mk (c :: s.toList), rest)
  | c :: r => do
    let (s, rest) ← parseJString r
    .ok (String.mk (c :: s.toList), rest)

/-- Read a JSON number. -/
def parseJNumber (l : List Char) : Except PyError (Val × List Char) :=
  let (sgn, l1) :=
    match l with
    | '-' :: r => ((-1 : Rat), r)
    | r => ((1 : Rat), r)
  match floatCore l1 with
  | none => .error .jsonDecodeError
  | some (v, rest) =>
    match parseExpSuffix v rest with
    | none => .error .jsonDecodeError
    | some (v2, rest2) => .ok (.vNum (sgn * v2), rest2)

mutual

/-- Read one JSON value. -/
def parseJValue : Nat → List Char → Except PyError (Val × List Char)
  | 0, _ => .error .jsonDecodeError
  | Nat.succ fuel, l =>
    match skipWs l with
    | 't' :: 'r' :: 'u' :: 'e' :: r => .ok (.vBool true, r)
    | 'f' :: 'a' :: 'l' :: 's' :: 'e' :: r => .ok (.vBool false, r)
    | 'n' :: 'u' :: 'l' :: 'l' :: r => .ok (.vNull, r)
    | '"' :: r => do
      let (s, rest) ← parseJString r
      .ok (.vStr s, rest)
    | '[' :: r =>
      (match skipWs r with
      | ']' :: rest => .ok (.vList [], rest)
      | r2 => do
        let (v, rest) ← parseJValue fuel r2
        let (vs, rest2) ← parseJArrayRest fuel rest
        .ok (.vList (v :: vs), rest2))
    | '{' :: r =>
      (match skipWs r with
      | '}' :: rest => .ok (.vDict [], rest)
      | '"' :: r2 => do
        let (k, rest) ← parseJString r2
        match skipWs rest with
        | ':' :: r3 => do
          let (v, rest2) ← parseJValue fuel r3
          let (kvs, rest3) ← parseJObjectRest fuel rest2
          .ok (.vDict ((k, v) :: kvs), rest3)
        | _ => .error .jsonDecodeError
      | _ => .error .jsonDecodeError)
    | l2 => parseJNumber l2

/-- Read the `, elem ... ]` tail of a JSON array. -/
def parseJArrayRest : Nat → List Char → Except PyError (List Val × List Char)
  | 0, _ => .error .jsonDecodeError
  | Nat.succ fuel, l =>
    match skipWs l with
    | ']' :: rest => .ok ([], rest)
    | ',' :: r => do
      let (v, rest) ← parseJValue fuel r
      let (vs, rest2) ← parseJArrayRest fuel rest
      .ok (v :: vs, rest2)
    | _ => .error .jsonDecodeError

/-- Read the `, "key": value ... }` tail of a JSON object. -/
def parseJObjectRest : Nat → List Char → Except PyError (List (String × Val) × List Char)
  | 0, _ => .error .jsonDecodeError
  | Nat.succ fuel, l =>
    match skipWs l with
    | '}' :: rest => .ok ([], rest)
    | ',' :: r =>
      (match skipWs r with
      | '"' :: r2 => do
        let (k, rest) ← parseJString r2
        match skipWs rest with
        | ':' :: r3 => do
          let (v, rest2) ← parseJValue fuel r3
          let (kvs, rest3) ← parseJObjectRest fuel rest2
          .ok ((k, v) :: kvs, rest3)
        | _ => .error .jsonDecodeError
      | _ => .error .jsonDecodeError)
    | _ => .error .jsonDecodeError

end

/-- `json.loads`: parse one JSON document, rejecting trailing garbage. -/
def jsonLoads (s : String) : Except PyError Val := do
  let l := s.toList
  let (v, rest) ← parseJValue (l.length + 1) l
  if skipWs rest = [] then .ok v else .error .jsonDecodeError

/-- `CompatibilityChecker._check_with_llm`, parameterized by the raw text the
    LLM adjudicator returns (the source holds a hardcoded simulated response
    at the marked TODO; the adjudicator is an external collaborator).  Only a
    JSON decode failure is caught; the three key lookups on the parsed object
    can raise (`KeyError` on a missing key, `TypeError` on a non-object). -/
def check_with_llm (_component_a _component_b : Component) (llmOutput : String) :
    Except PyError Verdict :=
  match jsonLoads llmOutput with
  | .error _ => .ok (.vBool false, .vStr "LLM兼容性检查失败，请手动确认。", .vNum 0)
  | .ok result => do
    let c ← pySubscript result "compatible"
    let r ← pySubscript result "reason"
    let conf ← pySubscript result "confidence"
    .ok (c, r, conf)

/-- The check type string `f"{cat_a}_{cat_b}"`. -/
def check_type (component_a component_b : Component) : String :=
  component_a.category ++ "_" ++ component_b.category

/-- Python `confidence > 0.8` on the dynamic confidence value. -/
def pyGtThreshold : Val → Except PyError Bool
  | .vNum q => .ok (decide (q > 4/5))
  | .vBool b => .ok (decide ((if b then (1 : Rat) else 0) > 4/5))
  | _ => .error .typeError

/-- `CompatibilityChecker.check_compatibility`: dispatch on the check type;
    a registered rule's verdict is final iff its confidence strictly exceeds
    0.8, otherwise (and for unregistered check types) the LLM fallback
    decides. -/
def check_compatibility (component_a component_b : Component) (llmOutput : String) :
    Except PyError Verdict :=
  match rules (check_type component_a component_b) with
  | some rule => do
    let (compatible, message, confidence) ← rule component_a component_b
    let hi ← pyGtThreshold confidence
    if hi then .ok (compatible, message, confidence)
    else check_with_llm component_a component_b llmOutput
  | none => check_with_llm component_a component_b llmOutput

/-!  ## src/tools/power_consumption.py  -/

/-- Python's `round` (banker's rounding: ties go to the even integer). -/
def pyRound (q : Rat) : Int :=
  let f := q.floor
  if q - f < 1/2 then f
  else if q - f > 1/2 then f + 1
  else if f % 2 = 0 then f else f + 1

/-- The `COMPONENT_POWER_ESTIMATES` table, in source (dict) order. -/
def COMPONENT_POWER_ESTIMATES : List (String × Rat) :=
  [("motherboard", 30), ("ram", 5), ("ssd", 5), ("hdd", 10), ("cooling", 10), ("other", 30)]

/-- `component_counts[cat]`: number of records of the given category. -/
def countCat (config_list : List Component) (cat : String) : Nat :=
  (config_list.filter (fun c => c.category = cat)).length

/-- Python dict assignment `d[k] = v` on an insertion-ordered association
    list: overwrite in place, or append a fresh key. -/
def dictSet (d : List (String × Rat)) (k : String) (v : Rat) : List (String × Rat) :=
  match d with
  | [] => [(k, v)]
  | (k2, v2) :: rest => if k2 = k then (k, v) :: rest else (k2, v2) :: dictSet rest k v

/-- The per-GPU power resolution of `calculate_power_consumption`, before the
    1.15 peak margin: the raw `tdp` spec if present; else the first integer
    of `str(recommended_psu)` scaled by 0.4, defaulting to 150 when no digit
    is found; else the model-name lookup table, defaulting to 150. -/
def gpu_power_base (gpu : Component) : Val :=
  match dictGet gpu.specs "tdp" with
  | some v => v
  | none =>
    match dictGet gpu.specs "recommended_psu" with
    | some recommended_psu =>
      match firstDigitRun (pyStrOf recommended_psu).toList with
      | some psu_wattage => .vNum ((psu_wattage : Rat) * (2/5))
      | none => .vNum 150
    | none =>
      let gpu_model := pyLower gpu.model
      .vNum (if strIn "rtx 4090" gpu_model ∨ strIn "rx 7900 xtx" gpu_model then 450
        else if strIn "rtx 4080" gpu_model ∨ strIn "rx 7900 xt" gpu_model then 320
        else if strIn "rtx 4070" gpu_model ∨ strIn "rx 7800 xt" gpu_model then 200
        else if strIn "rtx 4060" gpu_model ∨ strIn "rx 7700 xt" gpu_model then 160
        else 150)

/-- The GPU loop: scale each GPU's resolved power by 1.15 (`TypeError` when a
    raw `tdp` spec is a string), accumulate the total and write
    `gpu_<model>` breakdown entries. -/
def gpu_fold : List Component → Rat → List (String × Rat) →
    Except PyError (Rat × List (String × Rat))
  | [], total, bd => .ok (total, bd)
  | gpu :: rest, total, bd =>
    match pyMulFloat (gpu_power_base gpu) (23/20) with
    | .error e => .error e
    | .ok gpu_power => gpu_fold rest (total + gpu_power) (dictSet bd ("gpu_" ++ gpu.model) gpu_power)

/-- The common-wattage rounding loop of `calculate_power_consumption`: the
    first standard wattage ≥ the recommendation, else (the `for`'s `else`)
    the nearest multiple of 100. -/
def standard_psu_pick (recommended_psu : Int) : Int :=
  match [(450 : Int), 550, 650, 750, 850, 1000, 1200, 1500].find?
      (fun wattage => decide (wattage ≥ recommended_psu)) with
  | some wattage => wattage
  | none => pyRound ((recommended_psu : Rat) / 100) * 100

/-- The result dict of `calculate_power_consumption`. -/
structure PowerResult where
  total_power_estimate : Int
  recommended_psu_wattage : Int
  component_breakdown : List (String × Rat)
deriving Repr, DecidableEq

/-- `calculate_power_consumption`: CPU (first record only, default tdp 65,
    margin 1.2), per-GPU power with margin 1.15, fixed per-unit wattages for
    the table categories, then a 1.2/1.3 safety margin and rounding up to a
    standard PSU wattage. -/
def calculate_power_consumption (config_list : List Component) :
    Except PyError PowerResult := do
  let cpu_components := config_list.filter (fun c => c.category = "cpu")
  let (total₁, breakdown₁) ←
    match cpu_components with
    | [] => Except.ok ((0 : Rat), ([] : List (String × Rat)))
    | cpu :: _ => do
      let cpu_tdp := (dictGet cpu.specs "tdp").getD (.vNum 65)
      let cpu_power ← pyMulFloat cpu_tdp (6/5)
      Except.ok (cpu_power, [("cpu", cpu_power)])
  let gpu_components := config_list.filter (fun c => c.category = "gpu")
  let (total₂, breakdown₂) ← gpu_fold gpu_components total₁ breakdown₁
  let (total_power, component_breakdown) :=
    COMPONENT_POWER_ESTIMATES.foldl
      (fun (acc : Rat × List (String × Rat)) p =>
        let count := countCat config_list p.1
        if count ≠ 0 then
          (acc.1 + p.2 * (count : Rat), dictSet acc.2 p.1 (p.2 * (count : Rat)))
        else acc)
      (total₂, breakdown₂)
  let safety_margin : Rat := if total_power > 600 then 13/10 else 6/5
  let recommended_psu := pyRound (total_power * safety_margin)
  .ok ⟨pyRound total_power, standard_psu_pick recommended_psu, component_breakdown⟩

/-!  ## Generic helper lemmas  -/

lemma except_bind_ok {α β : Type} (a : α) (f : α → Except PyError β) :
    (Except.ok a >>= f) = f a := rfl

lemma except_bind_error {α β : Type} (e : PyError) (f : α → Except PyError β) :
    ((Except.error e : Except PyError α) >>= f) = Except.error e := rfl

/-!  ## Concrete sample records used by witnesses and counterexamples  -/

/-- A GPU record with complete, numeric power specs. -/
def gpuSample : Component :=
  ⟨"RTX 4090", "gpu", "NVIDIA", "RTX 4090", none,
   [("recommended_psu", .vNum 850), ("power_connectors", .vNum 3)]⟩

/-- A PSU record carrying the category string `psu` of the spec's data
    model. -/
def psuSample : Component :=
  ⟨"RM1000", "psu", "Corsair", "RM1000", none,
   [("output_power", .vNum 1000), ("pcie_connectors", .vNum 4)]⟩

/-- A CPU record with an LGA 1700 socket. -/
def cpuSample : Component :=
  ⟨"i5-13400F", "cpu", "Intel", "i5-13400F", none, [("socket", .vStr "LGA 1700")]⟩

/-- A motherboard record whose socket is spelled `lga1700`. -/
def moboSample : Component :=
  ⟨"B760", "motherboard", "MSI", "B760", none, [("socket", .vStr "lga1700")]⟩

/-- A CPU record with no socket spec. -/
def cpuNoSocket : Component := ⟨"c0", "cpu", "AMD", "c0", none, []⟩

/-- A motherboard record with no socket spec. -/
def moboNoSocket : Component := ⟨"m0", "motherboard", "MSI", "m0", none, []⟩

/-- A RAM record (no local rule is registered for any `ram_*` pair). -/
def ramSample : Component := ⟨"r0", "ram", "Corsair", "r0", none, []⟩

/-- A case record. -/
def caseSample : Component := ⟨"k0", "case", "NZXT", "k0", none, []⟩

/-- An adjudicator response used to make the LLM verdict observable. -/
def adjResp : String :=
  "\x7b\"compatible\": false, \"reason\": \"adj\", \"confidence\": 0.3\x7d"

/-!  ## Claims  -/

/-- C8: on the input list [cpu with tdp 65, gpu with tdp 200, ram with no
    specs, ssd with no specs], the estimator reports CPU 65·1.2 = 78,
    GPU 200·1.15 = 230, RAM 5, SSD 5, total 318, and — 318 not exceeding
    600 — margin 1.2 gives 381.6, which rounds up to the standard wattage
    450. -/
theorem C8_power_example :
    calculate_power_consumption
      [⟨"cpu0", "cpu", "Intel", "i5", none, [("tdp", .vNum 65)]⟩,
       ⟨"gpu0", "gpu", "NVIDIA", "G", none, [("tdp", .vNum 200)]⟩,
       ⟨"ram0", "ram", "Corsair", "V", none, []⟩,
       ⟨"ssd0", "ssd", "Samsung", "980", none, []⟩] =
      .ok ⟨318, 450, [("cpu", 78), ("gpu_G", 230), ("ram", 5), ("ssd", 5)]⟩ ∧
    (78 : Rat) = 65 * (6/5) ∧ (230 : Rat) = 200 * (23/20) ∧
    ¬ ((318 : Rat) > 600) ∧ (318 : Rat) * (6/5) = 381.6 ∧ pyRound 381.6 = 382 := by
  refine ⟨by with_unfolding_all rfl, by norm_num, by norm_num, by norm_num, by norm_num,
          by with_unfolding_all rfl⟩

/-- C2: whenever the adjudicator's response fails to parse as JSON, the LLM
    fallback returns the fixed failure verdict `(False, "LLM兼容性检查失败，
    请手动确认。", 0.0)` instead of raising, and `check_compatibility`
    surfaces exactly that verdict on any escalated (unregistered) pair. -/
theorem C2_adjudicator_parse_failure (component_a component_b : Component)
    (resp : String) (e : PyError) (h : jsonLoads resp = .error e) :
    check_with_llm component_a component_b resp =
      .ok (.vBool false, .vStr "LLM兼容性检查失败，请手动确认。", .vNum 0) ∧
    (rules (check_type component_a component_b) = none →
      check_compatibility component_a component_b resp =
        .ok (.vBool false, .vStr "LLM兼容性检查失败，请手动确认。", .vNum 0)) := by
  have h1 : check_with_llm component_a component_b resp =
      .ok (.vBool false, .vStr "LLM兼容性检查失败，请手动确认。", .vNum 0) := by
    unfold check_with_llm
    rw [h]
  refine ⟨h1, fun hr => ?_⟩
  unfold check_compatibility
  rw [hr, h1]

/-- C2 witness: a pair with no registered rule (`ram_case`) and the
    non-JSON response `"not json"`. -/
theorem C2_adjudicator_parse_failure_witness :
    check_with_llm ramSample caseSample "not json" =
      .ok (.vBool false, .vStr "LLM兼容性检查失败，请手动确认。", .vNum 0) ∧
    check_compatibility ramSample caseSample "not json" =
      .ok (.vBool false, .vStr "LLM兼容性检查失败，请手动确认。", .vNum 0) := by
  have h := C2_adjudicator_parse_failure ramSample caseSample "not json"
    .jsonDecodeError rfl
  exact ⟨h.1, h.2 rfl⟩

/-- C10: when the adjudicator's response parses as a JSON object that lacks
    `compatible`, `reason` or `confidence`, the corresponding `KeyError`
    propagates out of the LLM fallback (and out of `check_compatibility` on
    an escalated pair) instead of the fixed adjudication-failure verdict:
    only a JSON decode error is caught. -/
theorem C10_missing_key_propagates (component_a component_b : Component)
    (resp : String) (d : List (String × Val)) (h : jsonLoads resp = .ok (.vDict d)) :
    (dictGet d "compatible" = none →
      check_with_llm component_a component_b resp = .error (.keyError "compatible") ∧
      (rules (check_type component_a component_b) = none →
        check_compatibility component_a component_b resp =
          .error (.keyError "compatible"))) ∧
    (∀ c, dictGet d "compatible" = some c → dictGet d "reason" = none →
      check_with_llm component_a component_b resp = .error (.keyError "reason")) ∧
    (∀ c r, dictGet d "compatible" = some c → dictGet d "reason" = some r →
      dictGet d "confidence" = none →
      check_with_llm component_a component_b resp = .error (.keyError "confidence")) := by
  refine ⟨fun h1 => ?_, fun c h1 h2 => ?_, fun c r h1 h2 h3 => ?_⟩
  · have hllm : check_with_llm component_a component_b resp =
        .error (.keyError "compatible") := by
      unfold check_with_llm
      rw [h]
      simp [pySubscript, h1, except_bind_error, except_bind_ok]
    refine ⟨hllm, fun hr => ?_⟩
    unfold check_compatibility
    rw [hr, hllm]
  · unfold check_with_llm
    rw [h]
    simp [pySubscript, h1, h2, except_bind_error, except_bind_ok]
  · unfold check_with_llm
    rw [h]
    simp [pySubscript, h1, h2, h3, except_bind_error, except_bind_ok]

/-- C10 witness: the well-formed responses `{}`, `{"compatible": true}` and
    `{"compatible": true, "reason": "r"}` produce the three `KeyError`s on an
    unregistered (`ram_case`) pair. -/
theorem C10_missing_key_propagates_witness :
    check_with_llm ramSample caseSample "\x7b\x7d" = .error (.keyError "compatible") ∧
    check_compatibility ramSample caseSample "\x7b\x7d" = .error (.keyError "compatible") ∧
    check_with_llm ramSample caseSample "\x7b\"compatible\": true\x7d" =
      .error (.keyError "reason") ∧
    check_with_llm ramSample caseSample "\x7b\"compatible\": true, \"reason\": \"r\"\x7d" =
      .error (.keyError "confidence") := by
  have h1 := C10_missing_key_propagates ramSample caseSample "\x7b\x7d" [] rfl
  have h2 := C10_missing_key_propagates ramSample caseSample
    "\x7b\"compatible\": true\x7d" [("compatible", .vBool true)] rfl
  have h3 := C10_missing_key_propagates ramSample caseSample
    "\x7b\"compatible\": true, \"reason\": \"r\"\x7d"
    [("compatible", .vBool true), ("reason", .vStr "r")] rfl
  exact ⟨(h1.1 rfl).1, (h1.1 rfl).2 rfl, h2.2.1 (.vBool true) rfl rfl,
         h3.2.2 (.vBool true) (.vStr "r") rfl rfl rfl⟩

/-- C1: for a pair whose check type has a registered rule, the rule's
    verdict is final exactly when its confidence strictly exceeds 0.8;
    at confidence ≤ 0.8 (including exactly 0.8) the adjudicator's verdict is
    returned instead, discarding the local result. -/
theorem C1_confidence_threshold (component_a component_b : Component) (resp : String)
    (rule : Component → Component → Except PyError Verdict)
    (hrule : rules (check_type component_a component_b) = some rule)
    (c m : Val) (q : Rat)
    (hrun : rule component_a component_b = .ok (c, m, .vNum q)) :
    (q > 4/5 → check_compatibility component_a component_b resp = .ok (c, m, .vNum q)) ∧
    (q ≤ 4/5 → check_compatibility component_a component_b resp =
      check_with_llm component_a component_b resp) := by
  constructor
  · intro hq
    unfold check_compatibility
    rw [hrule]
    simp [hrun, except_bind_ok, pyGtThreshold, hq]
  · intro hq
    unfold check_compatibility
    rw [hrule]
    have hq2 : ¬ (q > 4/5) := not_lt.mpr hq
    simp [hrun, except_bind_ok, pyGtThreshold, hq2]

/-- C1 witness: matched LGA 1700 sockets give local confidence 1.0 > 0.8 (the
    rule verdict is final); a missing CPU socket gives confidence 0.5 ≤ 0.8
    (the adjudicator verdict is returned). -/
theorem C1_confidence_threshold_witness :
    check_compatibility cpuSample moboSample adjResp =
      .ok (.vBool true, .vStr "兼容: CPU插槽(LGA 1700)与主板插槽匹配", .vNum 1) ∧
    check_compatibility cpuNoSocket moboSample adjResp =
      check_with_llm cpuNoSocket moboSample adjResp := by
  constructor
  · exact (C1_confidence_threshold cpuSample moboSample adjResp check_cpu_motherboard
      rfl (.vBool true)
      (.vStr "兼容: CPU插槽(LGA 1700)与主板插槽匹配") 1
      rfl).1 (by norm_num)
  · exact (C1_confidence_threshold cpuNoSocket moboSample adjResp check_cpu_motherboard
      rfl .vNull (.vStr "无法确定: 插槽信息缺失") (1/2)
      rfl).2 (by norm_num)

/-- C9: the CPU–motherboard rule normalizes sockets by lowercasing and
    stripping non-alphanumerics (so "LGA 1700" equals "lga1700"), is decisive
    with confidence 1.0 when both normalized sockets are nonempty, and is
    indeterminate with confidence 0.5 when either socket field is missing —
    whether the CPU's (the motherboard's present or absent) or only the
    motherboard's (the CPU's present) — which escalates to the adjudicator
    since 0.5 does not exceed 0.8. -/
theorem C9_cpu_motherboard_socket (cpu mobo : Component) :
    socket_cleaner "LGA 1700" = socket_cleaner "lga1700" ∧
    (∀ s t, dictGet cpu.specs "socket" = some (.vStr s) →
      dictGet mobo.specs "socket" = some (.vStr t) →
      socket_cleaner s ≠ "" → socket_cleaner t ≠ "" →
      (socket_cleaner s = socket_cleaner t →
        check_cpu_motherboard cpu mobo =
          .ok (.vBool true, .vStr ("兼容: CPU插槽(" ++ s ++ ")与主板插槽匹配"), .vNum 1)) ∧
      (socket_cleaner s ≠ socket_cleaner t →
        check_cpu_motherboard cpu mobo =
          .ok (.vBool false,
               .vStr ("不兼容: CPU(" ++ s ++ ")与主板(" ++ t ++ ")插槽不匹配"), .vNum 1))) ∧
    (∀ t, dictGet cpu.specs "socket" = none →
      (dictGet mobo.specs "socket" = none ∨ dictGet mobo.specs "socket" = some (.vStr t)) →
      check_cpu_motherboard cpu mobo = .ok (.vNull, .vStr "无法确定: 插槽信息缺失", .vNum (1/2))) ∧
    (∀ t resp, cpu.category = "cpu" → mobo.category = "motherboard" →
      dictGet cpu.specs "socket" = none →
      (dictGet mobo.specs "socket" = none ∨ dictGet mobo.specs "socket" = some (.vStr t)) →
      check_compatibility cpu mobo resp = check_with_llm cpu mobo resp) ∧
    (∀ s, dictGet cpu.specs "socket" = some (.vStr s) →
      dictGet mobo.specs "socket" = none →
      check_cpu_motherboard cpu mobo =
        .ok (.vNull, .vStr "无法确定: 插槽信息缺失", .vNum (1/2))) ∧
    (∀ s resp, cpu.category = "cpu" → mobo.category = "motherboard" →
      dictGet cpu.specs "socket" = some (.vStr s) →
      dictGet mobo.specs "socket" = none →
      check_compatibility cpu mobo resp = check_with_llm cpu mobo resp) := by
  have hnorm : socket_cleaner "LGA 1700" = socket_cleaner "lga1700" := by decide
  have hmiss : ∀ t, dictGet cpu.specs "socket" = none →
      (dictGet mobo.specs "socket" = none ∨ dictGet mobo.specs "socket" = some (.vStr t)) →
      check_cpu_motherboard cpu mobo =
        .ok (.vNull, .vStr "无法确定: 插槽信息缺失", .vNum (1/2)) := by
    intro t h1 h2
    have hempty : socket_cleaner "" = "" := rfl
    unfold check_cpu_motherboard
    rcases h2 with h2 | h2 <;>
      simp [h1, h2, asStr, except_bind_ok, hempty]
  have hmiss2 : ∀ s, dictGet cpu.specs "socket" = some (.vStr s) →
      dictGet mobo.specs "socket" = none →
      check_cpu_motherboard cpu mobo =
        .ok (.vNull, .vStr "无法确定: 插槽信息缺失", .vNum (1/2)) := by
    intro s h1 h2
    have hempty : socket_cleaner "" = "" := rfl
    unfold check_cpu_motherboard
    simp [h1, h2, asStr, except_bind_ok, hempty]
  refine ⟨hnorm, fun s t h1 h2 hs ht => ?_, hmiss, fun t resp hc hm h1 h2 => ?_,
          hmiss2, fun s resp hc hm h1 h2 => ?_⟩
  · constructor
    · intro heq
      unfold check_cpu_motherboard
      simp [h1, h2, asStr, except_bind_ok, hs, ht, heq]
    · intro hne
      unfold check_cpu_motherboard
      simp [h1, h2, asStr, except_bind_ok, hs, ht, hne]
  · have hrule : rules (check_type cpu mobo) = some check_cpu_motherboard := by
      unfold check_type
      rw [hc, hm]
      rfl
    have hlt : ¬ ((1 : Rat)/2 > 4/5) := by norm_num
    unfold check_compatibility
    rw [hrule]
    simp [hmiss t h1 h2, except_bind_ok, pyGtThreshold, decide_eq_false hlt]
    intro hcontra
    exact absurd hcontra (by norm_num)
  · have hrule : rules (check_type cpu mobo) = some check_cpu_motherboard := by
      unfold check_type
      rw [hc, hm]
      rfl
    have hlt : ¬ ((1 : Rat)/2 > 4/5) := by norm_num
    unfold check_compatibility
    rw [hrule]
    simp [hmiss2 s h1 h2, except_bind_ok, pyGtThreshold, decide_eq_false hlt]
    intro hcontra
    exact absurd hcontra (by norm_num)

/-- C9 witness: concrete records with sockets "LGA 1700" / "lga1700"
    (decisive match), "AM5" / "lga1700" (decisive mismatch), a CPU with no
    socket (indeterminate 0.5 and escalation), and a motherboard with no
    socket against a socketed CPU (indeterminate 0.5 and escalation). -/
theorem C9_cpu_motherboard_socket_witness :
    check_cpu_motherboard cpuSample moboSample =
      .ok (.vBool true, .vStr "兼容: CPU插槽(LGA 1700)与主板插槽匹配", .vNum 1) ∧
    check_cpu_motherboard ⟨"c1", "cpu", "AMD", "7600", none, [("socket", .vStr "AM5")]⟩
        moboSample =
      .ok (.vBool false, .vStr "不兼容: CPU(AM5)与主板(lga1700)插槽不匹配", .vNum 1) ∧
    check_cpu_motherboard cpuNoSocket moboSample =
      .ok (.vNull, .vStr "无法确定: 插槽信息缺失", .vNum (1/2)) ∧
    check_compatibility cpuNoSocket moboSample adjResp =
      check_with_llm cpuNoSocket moboSample adjResp ∧
    check_cpu_motherboard cpuSample moboNoSocket =
      .ok (.vNull, .vStr "无法确定: 插槽信息缺失", .vNum (1/2)) ∧
    check_compatibility cpuSample moboNoSocket adjResp =
      check_with_llm cpuSample moboNoSocket adjResp := by
  refine ⟨?_, ?_, ?_, ?_, ?_, ?_⟩
  · exact ((C9_cpu_motherboard_socket cpuSample moboSample).2.1 "LGA 1700" "lga1700"
      rfl rfl (by decide) (by decide)).1 (by decide)
  · exact ((C9_cpu_motherboard_socket
      ⟨"c1", "cpu", "AMD", "7600", none, [("socket", .vStr "AM5")]⟩ moboSample).2.1
      "AM5" "lga1700" rfl rfl (by decide) (by decide)).2 (by decide)
  · exact (C9_cpu_motherboard_socket cpuNoSocket moboSample).2.2.1 "lga1700"
      rfl (Or.inr rfl)
  · exact (C9_cpu_motherboard_socket cpuNoSocket moboSample).2.2.2.1 "lga1700" adjResp
      rfl rfl rfl (Or.inr rfl)
  · exact (C9_cpu_motherboard_socket cpuSample moboNoSocket).2.2.2.2.1 "LGA 1700"
      rfl rfl
  · exact (C9_cpu_motherboard_socket cpuSample moboNoSocket).2.2.2.2.2 "LGA 1700"
      adjResp rfl rfl rfl rfl

/-- C4 counterexample: for records with categories `gpu` then `psu` the check
    type is `gpu_psu`, but no rule is registered under `gpu_psu` (nor under
    `psu_motherboard`): dispatch escalates to the adjudicator even though the
    local GPU–PSU rule would be decisive on these very records, so
    `check_compatibility` returns the adjudicator's verdict, not the rule's. -/
theorem C4_gpu_psu_unregistered_cex :
    check_type gpuSample psuSample = "gpu_psu" ∧
    rules "gpu_psu" = none ∧
    rules "psu_motherboard" = none ∧
    check_gpu_power gpuSample psuSample =
      .ok (.vBool true, .vStr "电源满足需求", .vNum (9/10)) ∧
    check_compatibility gpuSample psuSample adjResp =
      .ok (.vBool false, .vStr "adj", .vNum (3/10)) := by
  refine ⟨rfl, rfl, rfl, by with_unfolding_all rfl, by with_unfolding_all rfl⟩

/-- C4 amended: the GPU–PSU and PSU–motherboard rules are registered under
    the keys `gpu_power` and `power_motherboard` (PSU category spelled
    `power`), so `gpu`/`psu` and `psu`/`motherboard` pairs have no local rule
    and escalate unconditionally to the adjudicator, while `gpu`/`power` and
    `power`/`motherboard` pairs dispatch to the local rules. -/
theorem C4_gpu_psu_dispatch (a b : Component) (resp : String) :
    (a.category = "gpu" → b.category = "psu" →
      check_type a b = "gpu_psu" ∧ rules (check_type a b) = none ∧
      check_compatibility a b resp = check_with_llm a b resp) ∧
    (a.category = "psu" → b.category = "motherboard" →
      check_type a b = "psu_motherboard" ∧ rules (check_type a b) = none ∧
      check_compatibility a b resp = check_with_llm a b resp) ∧
    (a.category = "gpu" → b.category = "power" →
      rules (check_type a b) = some check_gpu_power) ∧
    (a.category = "power" → b.category = "motherboard" →
      rules (check_type a b) = some check_power_motherboard) := by
  refine ⟨fun h1 h2 => ?_, fun h1 h2 => ?_, fun h1 h2 => ?_, fun h1 h2 => ?_⟩
  · have hct : check_type a b = "gpu_psu" := by
      unfold check_type; rw [h1, h2]; rfl
    refine ⟨hct, by rw [hct]; rfl, ?_⟩
    unfold check_compatibility
    rw [hct]
    rfl
  · have hct : check_type a b = "psu_motherboard" := by
      unfold check_type; rw [h1, h2]; rfl
    refine ⟨hct, by rw [hct]; rfl, ?_⟩
    unfold check_compatibility
    rw [hct]
    rfl
  · have hct : check_type a b = "gpu_power" := by
      unfold check_type; rw [h1, h2]; rfl
    rw [hct]
    rfl
  · have hct : check_type a b = "power_motherboard" := by
      unfold check_type; rw [h1, h2]; rfl
    rw [hct]
    rfl

/-- C4 witness: the sample GPU/PSU pair escalates, and concrete `power`
    records dispatch to the local rules. -/
theorem C4_gpu_psu_dispatch_witness :
    check_type gpuSample psuSample = "gpu_psu" ∧
    rules (check_type gpuSample psuSample) = none ∧
    check_compatibility gpuSample psuSample adjResp =
      check_with_llm gpuSample psuSample adjResp ∧
    rules (check_type gpuSample ⟨"p", "power", "C", "RM750", none, []⟩) =
      some check_gpu_power ∧
    rules (check_type ⟨"p", "power", "C", "RM750", none, []⟩ moboSample) =
      some check_power_motherboard := by
  have h := C4_gpu_psu_dispatch gpuSample psuSample adjResp
  refine ⟨(h.1 rfl rfl).1, (h.1 rfl rfl).2.1, (h.1 rfl rfl).2.2, ?_, ?_⟩
  · exact (C4_gpu_psu_dispatch gpuSample ⟨"p", "power", "C", "RM750", none, []⟩
      adjResp).2.2.1 rfl rfl
  · exact (C4_gpu_psu_dispatch ⟨"p", "power", "C", "RM750", none, []⟩ moboSample
      adjResp).2.2.2 rfl rfl

/-- A single-GPU configuration evaluates to its GPU's resolved power scaled
    by 1.15, with the sub-600 margin 1.2, whenever the GPU's base power is
    known and small. -/
lemma calc_single_gpu (gpu : Component) (hcat : gpu.category = "gpu") (p : Rat)
    (hbase : gpu_power_base gpu = .vNum p) (h600 : ¬ (p * (23/20) > 600)) :
    calculate_power_consumption [gpu] =
      .ok ⟨pyRound (p * (23/20)),
           standard_psu_pick (pyRound (p * (23/20) * (6/5))),
           [("gpu_" ++ gpu.model, p * (23/20))]⟩ := by
  unfold calculate_power_consumption
  have hne : gpu.category ≠ "cpu" := by rw [hcat]; decide
  simp [List.filter, hcat, hbase, gpu_fold, pyMulFloat, dictSet, countCat,
        COMPONENT_POWER_ESTIMATES, except_bind_ok, h600]

/-- A single-CPU configuration with no tdp spec costs 65·1.2 = 78 and
    recommends a 450 W PSU. -/
lemma calc_single_cpu (cpu : Component) (hcat : cpu.category = "cpu")
    (htdp : dictGet cpu.specs "tdp" = none) :
    calculate_power_consumption [cpu] = .ok ⟨78, 450, [("cpu", 78)]⟩ := by
  unfold calculate_power_consumption
  have h1 : (65 : Rat) * (6/5) = 78 := by norm_num
  have h600 : ¬ ((78 : Rat) > 600) := by norm_num
  have h94 : pyRound ((78 : Rat) * (6/5)) = 94 := by with_unfolding_all rfl
  have h78 : pyRound (78 : Rat) = 78 := by with_unfolding_all rfl
  have h450 : standard_psu_pick 94 = 450 := by with_unfolding_all rfl
  simp [List.filter, hcat, htdp, gpu_fold, pyMulFloat, countCat,
        COMPONENT_POWER_ESTIMATES, except_bind_ok, h1, h600, h94, h78, h450]

/-- C5 counterexample: a GPU named `RTX 4090` whose `recommended_psu` text
    has no extractable number is costed from the fixed default 150 (·1.15 =
    172.5), not from the name table's 450. -/
theorem C5_no_number_cex :
    gpu_power_base ⟨"RTX 4090", "gpu", "NVIDIA", "RTX 4090", none,
      [("recommended_psu", .vStr "abc")]⟩ = .vNum 150 ∧
    strIn "rtx 4090" (pyLower "RTX 4090") = true ∧
    calculate_power_consumption [⟨"RTX 4090", "gpu", "NVIDIA", "RTX 4090", none,
      [("recommended_psu", .vStr "abc")]⟩] =
      .ok ⟨172, 450, [("gpu_RTX 4090", 150 * (23/20))]⟩ ∧
    (150 * (23/20) : Rat) ≠ 450 * (23/20) := by
  refine ⟨rfl, rfl, by with_unfolding_all rfl, by norm_num⟩

/-- C5 amended: when `recommended_psu` is present but carries no extractable
    number, the GPU power is the fixed default 150 regardless of the model
    name, and estimation completes without raising; the name-based table
    (4090-class → 450, …, default 150) applies only when the specs carry
    neither `tdp` nor `recommended_psu`. -/
theorem C5_no_number_fallback (gpu : Component) :
    (∀ rp, dictGet gpu.specs "tdp" = none →
      dictGet gpu.specs "recommended_psu" = some rp →
      firstDigitRun (pyStrOf rp).toList = none →
      gpu_power_base gpu = .vNum 150 ∧
      (gpu.category = "gpu" →
        calculate_power_consumption [gpu] =
          .ok ⟨172, 450, [("gpu_" ++ gpu.model, 150 * (23/20))]⟩)) ∧
    (dictGet gpu.specs "tdp" = none → dictGet gpu.specs "recommended_psu" = none →
      (strIn "rtx 4090" (pyLower gpu.model) = true ∨
       strIn "rx 7900 xtx" (pyLower gpu.model) = true) →
      gpu_power_base gpu = .vNum 450) ∧
    (dictGet gpu.specs "tdp" = none → dictGet gpu.specs "recommended_psu" = none →
      strIn "rtx 4090" (pyLower gpu.model) = false →
      strIn "rx 7900 xtx" (pyLower gpu.model) = false →
      strIn "rtx 4080" (pyLower gpu.model) = false →
      strIn "rx 7900 xt" (pyLower gpu.model) = false →
      strIn "rtx 4070" (pyLower gpu.model) = false →
      strIn "rx 7800 xt" (pyLower gpu.model) = false →
      strIn "rtx 4060" (pyLower gpu.model) = false →
      strIn "rx 7700 xt" (pyLower gpu.model) = false →
      gpu_power_base gpu = .vNum 150) := by
  refine ⟨fun rp h1 h2 h3 => ?_, fun h1 h2 h3 => ?_,
          fun h1 h2 n1 n2 n3 n4 n5 n6 n7 n8 => ?_⟩
  · have hbase : gpu_power_base gpu = .vNum 150 := by
      have h3d : firstDigitRun (pyStrOf rp).data = none := h3
      unfold gpu_power_base
      simp [h1, h2, h3d]
    refine ⟨hbase, fun hcat => ?_⟩
    have h600 : ¬ ((150 : Rat) * (23/20) > 600) := by norm_num
    rw [calc_single_gpu gpu hcat 150 hbase h600]
    have e1 : pyRound ((150 : Rat) * (23/20)) = 172 := by with_unfolding_all rfl
    have e2 : standard_psu_pick (pyRound ((150 : Rat) * (23/20) * (6/5))) = 450 := by
      with_unfolding_all rfl
    rw [e1, e2]
  · unfold gpu_power_base
    rcases h3 with h3 | h3 <;> simp [h1, h2, h3]
  · unfold gpu_power_base
    simp [h1, h2, n1, n2, n3, n4, n5, n6, n7, n8]

/-- C5 witness: the `RTX 4090`-named GPU with `recommended_psu = "abc"`
    (fallback 150 and a completed estimate), plus name-table hits for a bare
    4090-class record and the default for an unknown model. -/
theorem C5_no_number_fallback_witness :
    gpu_power_base ⟨"RTX 4090", "gpu", "NVIDIA", "RTX 4090", none,
      [("recommended_psu", .vStr "abc")]⟩ = .vNum 150 ∧
    calculate_power_consumption [⟨"RTX 4090", "gpu", "NVIDIA", "RTX 4090", none,
      [("recommended_psu", .vStr "abc")]⟩] =
      .ok ⟨172, 450, [("gpu_RTX 4090", 150 * (23/20))]⟩ ∧
    gpu_power_base ⟨"g", "gpu", "NVIDIA", "RTX 4090", none, []⟩ = .vNum 450 ∧
    gpu_power_base ⟨"g", "gpu", "Matrox", "M9120", none, []⟩ = .vNum 150 := by
  have h1 := (C5_no_number_fallback ⟨"RTX 4090", "gpu", "NVIDIA", "RTX 4090", none,
    [("recommended_psu", .vStr "abc")]⟩).1 (.vStr "abc") rfl rfl rfl
  refine ⟨h1.1, h1.2 rfl, ?_, ?_⟩
  · exact (C5_no_number_fallback ⟨"g", "gpu", "NVIDIA", "RTX 4090", none, []⟩).2.1
      rfl rfl (Or.inl rfl)
  · exact (C5_no_number_fallback ⟨"g", "gpu", "Matrox", "M9120", none, []⟩).2.2
      rfl rfl rfl rfl rfl rfl rfl rfl rfl rfl

/-- C3 counterexample: malformed (wrongly typed) spec values do raise
    unhandled faults: the GPU–PSU rule's raw comparison of a numeric PSU
    wattage with a string `recommended_psu` is a Python `TypeError`, the
    dotted-path descent through a non-mapping intermediate (`"b" in 5`) is a
    `TypeError`, and CPU power from a string `tdp` (`"65W" * 1.2`) is a
    `TypeError`; the first one even escapes `check_compatibility`. -/
theorem C3_typeerror_cex :
    check_gpu_power
      ⟨"g", "gpu", "N", "RTX 4090", none,
       [("recommended_psu", .vStr "650W"), ("power_connectors", .vNum 2)]⟩
      ⟨"p", "power", "C", "RM550", none,
       [("output_power", .vNum 550), ("pcie_connectors", .vNum 2)]⟩ =
      .error .typeError ∧
    spec_filter_matches ⟨"x", "cpu", "A", "m", none, [("a", .vNum 5)]⟩
      [("a.b", .vNum 1)] = .error .typeError ∧
    calculate_power_consumption [⟨"c", "cpu", "I", "i5", none, [("tdp", .vStr "65W")]⟩] =
      .error .typeError ∧
    check_compatibility
      ⟨"g", "gpu", "N", "RTX 4090", none,
       [("recommended_psu", .vStr "650W"), ("power_connectors", .vNum 2)]⟩
      ⟨"p", "power", "C", "RM550", none,
       [("output_power", .vNum 550), ("pcie_connectors", .vNum 2)]⟩ adjResp =
      .error .typeError := by
  refine ⟨by with_unfolding_all rfl, rfl, by with_unfolding_all rfl,
          by with_unfolding_all rfl⟩

/-- C3 amended: for missing spec values the cited branches do take explicit
    fallbacks — the GPU–PSU rule returns the indeterminate 0.6 verdict when
    any of its four fields is missing or falsy, dotted-path filtering
    excludes a record whose first path segment is absent, and CPU power
    defaults an absent tdp to 65 — but malformed typed values can raise
    `TypeError` in those same places (see the counterexample). -/
theorem C3_missing_value_fallbacks :
    (∀ gpu psu,
      (truthy ((dictGet gpu.specs "recommended_psu").getD (.vNum 0)) = false ∨
       truthy ((dictGet psu.specs "output_power").getD (.vNum 0)) = false ∨
       truthy ((dictGet psu.specs "pcie_connectors").getD (.vNum 0)) = false ∨
       truthy ((dictGet gpu.specs "power_connectors").getD (.vNum 0)) = false) →
      check_gpu_power gpu psu = .ok (.vNull, .vStr "电源规格信息不完整", .vNum (3/5))) ∧
    (∀ item key v p ps, splitDot key.toList = p :: ps →
      ¬ (key = "brand" ∨ key = "min_price" ∨ key = "max_price") →
      strIn "." key = true →
      dictGet item.specs p = none →
      spec_filter_matches item [(key, v)] = .ok false) ∧
    (∀ cpu, cpu.category = "cpu" → dictGet cpu.specs "tdp" = none →
      calculate_power_consumption [cpu] = .ok ⟨78, 450, [("cpu", 78)]⟩) := by
  refine ⟨fun gpu psu h => ?_, fun item key v p ps hsplit hskip hdot hmiss => ?_,
          fun cpu hcat htdp => calc_single_cpu cpu hcat htdp⟩
  · unfold check_gpu_power
    rcases h with h | h | h | h <;> simp [h]
  · have hsplitd : splitDot key.data = p :: ps := hsplit
    unfold spec_filter_matches
    rw [if_neg hskip]
    simp [hdot, hsplitd, descend, pyIn, hmiss]

/-- C3 witness: a GPU lacking `recommended_psu` against a complete PSU
    (indeterminate 0.6), a dotted filter whose first segment is absent
    (record excluded), and a CPU with no tdp (default 65 → 78/450). -/
theorem C3_missing_value_fallbacks_witness :
    check_gpu_power ⟨"g", "gpu", "N", "RTX 4090", none, [("power_connectors", .vNum 2)]⟩
      ⟨"p", "power", "C", "RM550", none,
       [("output_power", .vNum 550), ("pcie_connectors", .vNum 2)]⟩ =
      .ok (.vNull, .vStr "电源规格信息不完整", .vNum (3/5)) ∧
    spec_filter_matches ⟨"x", "cpu", "A", "m", none, [("a", .vNum 5)]⟩
      [("z.b", .vNum 1)] = .ok false ∧
    calculate_power_consumption [⟨"c", "cpu", "I", "i5", none, []⟩] =
      .ok ⟨78, 450, [("cpu", 78)]⟩ := by
  refine ⟨C3_missing_value_fallbacks.1
      ⟨"g", "gpu", "N", "RTX 4090", none, [("power_connectors", .vNum 2)]⟩
      ⟨"p", "power", "C", "RM550", none,
       [("output_power", .vNum 550), ("pcie_connectors", .vNum 2)]⟩ (Or.inl rfl),
    C3_missing_value_fallbacks.2.1 ⟨"x", "cpu", "A", "m", none, [("a", .vNum 5)]⟩
      "z.b" (.vNum 1) "z" ["b"] rfl (by decide) rfl rfl,
    C3_missing_value_fallbacks.2.2 ⟨"c", "cpu", "I", "i5", none, []⟩ rfl rfl⟩

/-- C6: the fine-filter value comparison — a string filter beginning with
    `>=`, `<=`, `>` or `<` parses its remainder as a float threshold and the
    record's value as a float, with any parse failure yielding `false` (the
    record is excluded; `value_matches` is total, so nothing ever raises);
    every other filter value is compared by string forms,
    `str(actual) == str(filter)`. -/
theorem C6_value_comparison :
    (∀ a rest, value_matches a (.vStr (String.mk ('>' :: '=' :: rest))) =
      match pyFloatOfString (String.mk rest), pyFloatOfVal a with
      | .ok t, .ok x => decide (x ≥ t)
      | _, _ => false) ∧
    (∀ a rest, value_matches a (.vStr (String.mk ('<' :: '=' :: rest))) =
      match pyFloatOfString (String.mk rest), pyFloatOfVal a with
      | .ok t, .ok x => decide (x ≤ t)
      | _, _ => false) ∧
    (∀ a rest, rest.head? ≠ some '=' →
      value_matches a (.vStr (String.mk ('>' :: rest))) =
      match pyFloatOfString (String.mk rest), pyFloatOfVal a with
      | .ok t, .ok x => decide (x > t)
      | _, _ => false) ∧
    (∀ a rest, rest.head? ≠ some '=' →
      value_matches a (.vStr (String.mk ('<' :: rest))) =
      match pyFloatOfString (String.mk rest), pyFloatOfVal a with
      | .ok t, .ok x => decide (x < t)
      | _, _ => false) ∧
    (∀ a c cs, c ≠ '>' → c ≠ '<' →
      value_matches a (.vStr (String.mk (c :: cs))) =
      decide (pyStrOf a = String.mk (c :: cs))) ∧
    (∀ a, value_matches a (.vStr "") = decide (pyStrOf a = "")) ∧
    (∀ a f, (∀ s, f ≠ .vStr s) → value_matches a f = decide (pyStrOf a = pyStrOf f)) := by
  refine ⟨fun a rest => ?_, fun a rest => ?_, fun a rest hr => ?_, fun a rest hr => ?_,
          fun a c cs hgt hlt => ?_, fun a => rfl, fun a f hf => ?_⟩
  · cases rest with
    | nil => simp [value_matches, cmpThreshold]
    | cons c cs => simp [value_matches, cmpThreshold]
  · cases rest with
    | nil => simp [value_matches, cmpThreshold]
    | cons c cs => simp [value_matches, cmpThreshold]
  · cases rest with
    | nil => simp [value_matches, cmpThreshold]
    | cons c cs =>
      have hc : c ≠ '=' := by
        intro h
        exact hr (by rw [h]; rfl)
      simp [value_matches, cmpThreshold, hc]
  · cases rest with
    | nil => simp [value_matches, cmpThreshold]
    | cons c cs =>
      have hc : c ≠ '=' := by
        intro h
        exact hr (by rw [h]; rfl)
      simp [value_matches, cmpThreshold, hc]
  · cases cs with
    | nil => simp [value_matches, hgt, hlt]
    | cons c2 cs2 => simp [value_matches, hgt, hlt]
  · cases f with
    | vStr s => exact absurd rfl (hf s)
    | vNum q => rfl
    | vBool b => rfl
    | vNull => rfl
    | vDict d => rfl
    | vList l => rfl

/-- C6 witness: concrete comparisons — `>=6` admits 8 and rejects 5 and the
    unparseable `"abc"`, `>abc` (unparseable threshold) rejects, `>=` is not
    parsed as `>` with remainder `=`, and plain values compare by string
    form. -/
theorem C6_value_comparison_witness :
    value_matches (.vNum 8) (.vStr ">=6") = true ∧
    value_matches (.vNum 5) (.vStr ">=6") = false ∧
    value_matches (.vStr "abc") (.vStr ">=6") = false ∧
    value_matches (.vNum 5) (.vStr ">abc") = false ∧
    value_matches (.vNum 5) (.vStr "<6") = true ∧
    value_matches (.vStr "PCIe 5.0") (.vStr "PCIe 5.0") = true ∧
    value_matches (.vNum 5) (.vNum 5) = true := by
  have c := C6_value_comparison
  refine ⟨?_, ?_, ?_, ?_, ?_, ?_, ?_⟩
  · rw [show (">=6" : String) = String.mk ('>' :: '=' :: "6".toList) from rfl, c.1]
    with_unfolding_all rfl
  · rw [show (">=6" : String) = String.mk ('>' :: '=' :: "6".toList) from rfl, c.1]
    with_unfolding_all rfl
  · rw [show (">=6" : String) = String.mk ('>' :: '=' :: "6".toList) from rfl, c.1]
    with_unfolding_all rfl
  · rw [show (">abc" : String) = String.mk ('>' :: "abc".toList) from rfl,
      c.2.2.1 (.vNum 5) "abc".toList (by decide)]
    with_unfolding_all rfl
  · rw [show ("<6" : String) = String.mk ('<' :: "6".toList) from rfl,
      c.2.2.2.1 (.vNum 5) "6".toList (by decide)]
    with_unfolding_all rfl
  · rw [show ("PCIe 5.0" : String) = String.mk ('P' :: "CIe 5.0".toList) from rfl,
      c.2.2.2.2.1 (.vStr (String.mk ('P' :: "CIe 5.0".toList))) 'P' "CIe 5.0".toList
        (by decide) (by decide)]
    decide
  · exact c.2.2.2.2.2.2 (.vNum 5) (.vNum 5) (fun s h => Val.noConfusion h)

/-- Every record of a successfully filtered output satisfies every filter. -/
lemma apply_spec_filters_mem (filters : List (String × Val)) :
    ∀ items l, apply_spec_filters items filters = .ok l →
    ∀ x ∈ l, spec_filter_matches x filters = .ok true := by
  intro items
  induction items with
  | nil =>
    intro l h x hx
    unfold apply_spec_filters at h
    cases h
    cases hx
  | cons i is ih =>
    intro l h x hx
    unfold apply_spec_filters at h
    cases hm : spec_filter_matches i filters with
    | error e => rw [hm] at h; cases h
    | ok m =>
      cases hr : apply_spec_filters is filters with
      | error e => rw [hm, hr] at h; cases h
      | ok rest =>
        rw [hm, hr] at h
        cases m with
        | false =>
          simp only [if_neg Bool.false_ne_true, Except.ok.injEq] at h
          subst h
          exact ih rest hr x hx
        | true =>
          simp only [if_pos rfl, Except.ok.injEq] at h
          subst h
          rcases List.mem_cons.mp hx with hx | hx
          · subst hx
            exact hm
          · exact ih rest hr x hx

/-- A list each of whose records satisfies every filter is returned
    unchanged by the filter pass. -/
lemma apply_spec_filters_of_all (filters : List (String × Val)) :
    ∀ l, (∀ x ∈ l, spec_filter_matches x filters = .ok true) →
    apply_spec_filters l filters = .ok l := by
  intro l
  induction l with
  | nil => intro _; rfl
  | cons i is ih =>
    intro h
    unfold apply_spec_filters
    rw [h i (List.mem_cons_self i is), ih (fun x hx => h x (List.mem_cons_of_mem i hx))]
    simp

/-- C7: spec-based filtering is idempotent — whenever a filter pass succeeds,
    re-filtering its output with the same predicate set returns that output
    unchanged. -/
theorem C7_filter_idempotent (items : List Component) (filters : List (String × Val))
    (l : List Component) (h : apply_spec_filters items filters = .ok l) :
    apply_spec_filters l filters = .ok l :=
  apply_spec_filters_of_all filters l (apply_spec_filters_mem filters items l h)

/-- C7 witness: a socket filter keeps exactly the matching record, and
    re-filtering that output returns it unchanged. -/
theorem C7_filter_idempotent_witness :
    apply_spec_filters [cpuSample, cpuNoSocket] [("socket", .vStr "LGA 1700")] =
      .ok [cpuSample] ∧
    apply_spec_filters [cpuSample] [("socket", .vStr "LGA 1700")] = .ok [cpuSample] :=
  ⟨rfl, C7_filter_idempotent [cpuSample, cpuNoSocket] [("socket", .vStr "LGA 1700")]
    [cpuSample] rfl⟩

end PCBot
